import Mathlib

/-!
Shallow embedding of the Gardener garden-planner (`src/main.ts`, the
controller-object variant built around the `GardenPlanner` class).

Coordinates are modelled as rationals (`ℚ`): mouse positions may be
fractional and `Math.round` is modelled exactly on `ℚ` as
`⌊q + 1/2⌋` (round half towards positive infinity, the JS behaviour).

The mutable fields of the `GardenPlanner` object become a `PlannerState`
record; each event handler / method becomes a state-transformer.  Canvas
rendering calls (`ctx.*`) have no effect on the planner fields and are
dropped from the embedding.  `JSON.stringify` / `JSON.parse` are modelled
as the identity on an explicit `Json` value tree, so saving produces a
`Json` value and loading consumes one.
-/

namespace Gardener

/-- A 2D point, as the `{ x, y }` object literals of `main.ts`. -/
@[ext] structure Point where
  x : ℚ
  y : ℚ
deriving DecidableEq, Repr, Inhabited

/-- A plant record of this variant: `{ x, y, type }` (line 5 of `main.ts`);
this variant has no waterNeeds / sunlight / spacing fields. -/
@[ext] structure Plant where
  x : ℚ
  y : ℚ
  type : String
deriving DecidableEq, Repr, Inhabited

/-- The mutable fields of the `GardenPlanner` class (lines 4-9 of
`main.ts`); `canvas`, `ctx` are rendering handles with no logical state. -/
@[ext] structure PlannerState where
  gardenPath : List Point
  plants : List Plant
  pots : List Point
  currentLineStart : Option Point
  currentTool : String
deriving DecidableEq, Repr, Inhabited

/-- `gridSize` field, line 7: `private gridSize: number = 20`. -/
def gridSize : ℚ := 20

/-- JS `Math.round` on an exact rational: round half towards +∞. -/
def roundJs (q : ℚ) : ℤ := ⌊q + 1/2⌋

/-- `snapToGrid` (lines 78-83):
`Math.round(position.x / this.gridSize) * this.gridSize` on each axis. -/
def snapToGrid (p : Point) : Point :=
  ⟨(roundJs (p.x / gridSize) : ℚ) * gridSize,
   (roundJs (p.y / gridSize) : ℚ) * gridSize⟩

/-- `addPlant` (lines 155-158): pushes `{ x, y, type }` and redraws. -/
def addPlant (s : PlannerState) (x y : ℚ) (t : String) : PlannerState :=
  { s with plants := s.plants ++ [⟨x, y, t⟩] }

/-- `addPot` (lines 161-164): pushes `{ x, y }` and redraws. -/
def addPot (s : PlannerState) (x y : ℚ) : PlannerState :=
  { s with pots := s.pots ++ [⟨x, y⟩] }

/-- `startDrawing` (lines 32-42), with `mousePos` the already computed
mouse position.  Note there is no containment test anywhere: the
`plant` / `pot` branches append unconditionally. -/
def startDrawing (s : PlannerState) (mousePos : Point) : PlannerState :=
  if s.currentTool = "draw" then
    let q := snapToGrid mousePos
    { s with currentLineStart := some q, gardenPath := s.gardenPath ++ [q] }
  else if s.currentTool = "plant" then
    addPlant s mousePos.x mousePos.y "Rose"
  else if s.currentTool = "pot" then
    addPot s mousePos.x mousePos.y
  else
    s

/-- `draw` (lines 44-58): draws the in-progress line on the canvas but
writes no planner field, so it is the identity on the state. -/
def draw (s : PlannerState) (_mousePos : Point) : PlannerState := s

/-- `stopDrawing` (lines 60-68): if a line is in progress, push the
snapped mouse position and clear `currentLineStart`.  It does NOT look
at `currentTool`. -/
def stopDrawing (s : PlannerState) (mousePos : Point) : PlannerState :=
  match s.currentLineStart with
  | none => s
  | some _ =>
    { s with gardenPath := s.gardenPath ++ [snapToGrid mousePos],
             currentLineStart := none }

/-- `setMode` (lines 194-196). -/
def setMode (s : PlannerState) (tool : String) : PlannerState :=
  { s with currentTool := tool }

/-- `lockGarden` (lines 199-201): `this.currentTool = 'locked'`. -/
def lockGarden (s : PlannerState) : PlannerState :=
  { s with currentTool := "locked" }

/-- The three canvas mouse events the class listens to (lines 26-30). -/
inductive Ev where
  | down : Point → Ev
  | move : Point → Ev
  | up : Point → Ev
deriving DecidableEq, Repr

/-- Dispatch of one mouse event to its handler. -/
def stepEv : Ev → PlannerState → PlannerState
  | Ev.down p, s => startDrawing s p
  | Ev.move p, s => draw s p
  | Ev.up p, s => stopDrawing s p

/-- Run a sequence of mouse events. -/
def runEvents (s : PlannerState) (evs : List Ev) : PlannerState :=
  evs.foldl (fun t e => stepEv e t) s

/- ========================= JSON layer ========================= -/

/-- JSON values, as produced by `JSON.stringify` / consumed by
`JSON.parse`.  Numbers are exact rationals. -/
inductive Json where
  | num : ℚ → Json
  | str : String → Json
  | arr : List Json → Json
  | obj : List (String × Json) → Json
deriving Repr, Inhabited

/-- Property access `j.k` on a parsed JSON object: `none` models the JS
`undefined` (key absent or the value is not an object). -/
def jsonLookup (k : String) : Json → Option Json
  | Json.obj kvs => kvs.lookup k
  | _ => none

/-- Top-level key list of a JSON object. -/
def jsonKeys : Json → List String
  | Json.obj kvs => kvs.map Prod.fst
  | _ => []

/-- Serialization of a `{ x, y }` point, as `JSON.stringify` emits it. -/
def pointToJson (p : Point) : Json :=
  Json.obj [("x", Json.num p.x), ("y", Json.num p.y)]

/-- Serialization of a `{ x, y, type }` plant record. -/
def plantToJson (p : Plant) : Json :=
  Json.obj [("x", Json.num p.x), ("y", Json.num p.y), ("type", Json.str p.type)]

/-- The `gardenData` object built by `saveGarden` (lines 167-174). -/
def saveJson (s : PlannerState) : Json :=
  Json.obj [("gardenPath", Json.arr (s.gardenPath.map pointToJson)),
            ("plants", Json.arr (s.plants.map plantToJson)),
            ("pots", Json.arr (s.pots.map pointToJson))]

/-- `saveGarden` (lines 167-174): builds `gardenData` from the three
collections and writes it under the key `gardenLayout` in localStorage;
no planner field is assigned.  Returns the (unchanged) state together
with the updated store. -/
def saveGarden (s : PlannerState) (store : List (String × Json)) :
    PlannerState × List (String × Json) :=
  (s, ("gardenLayout", saveJson s) :: store.filter (fun kv => kv.1 ≠ "gardenLayout"))

/-- Reading a `{ x, y }` point back out of parsed JSON. -/
def pointFromJson : Json → Option Point
  | Json.obj kvs =>
    match kvs.lookup "x", kvs.lookup "y" with
    | some (Json.num x), some (Json.num y) => some ⟨x, y⟩
    | _, _ => none
  | _ => none

/-- Reading a `{ x, y, type }` plant record back out of parsed JSON. -/
def plantFromJson : Json → Option Plant
  | Json.obj kvs =>
    match kvs.lookup "x", kvs.lookup "y", kvs.lookup "type" with
    | some (Json.num x), some (Json.num y), some (Json.str t) => some ⟨x, y, t⟩
    | _, _, _ => none
  | _ => none

/-- Reading a homogeneous JSON array elementwise. -/
def decodeList (f : Json → Option α) : Json → Option (List α)
  | Json.arr js => go f js
  | _ => none
where
  go (f : Json → Option α) : List Json → Option (List α)
  | [] => some []
  | j :: js =>
    match f j, go f js with
    | some a, some as => some (a :: as)
    | _, _ => none

/-- The three raw assignments of `loadGarden`'s `onload` callback
(lines 183-186): `this.gardenPath = gardenData.gardenPath` etc.  A field
is `none` exactly when the JS assignment would store something other
than a well-typed collection — in particular `undefined` when the key is
absent.  No defaulting of any kind is performed by the code. -/
structure LoadResult where
  gardenPath : Option (List Point)
  plants : Option (List Plant)
  pots : Option (List Point)
deriving DecidableEq, Repr

/-- `loadGarden` (lines 177-191) restricted to its data flow: parse the
chosen file's JSON and assign the three collections from its keys. -/
def loadGarden (j : Json) : LoadResult :=
  { gardenPath := (jsonLookup "gardenPath" j).bind (decodeList pointFromJson),
    plants := (jsonLookup "plants" j).bind (decodeList plantFromJson),
    pots := (jsonLookup "pots" j).bind (decodeList pointFromJson) }

/-- `loadGarden` as a transformer of the planner state: when all three
keys decode, the three collections are wholesale replaced (the other
fields are untouched); otherwise the planner is left holding an
ill-typed collection, modelled as `none`. -/
def applyLoad (s : PlannerState) (j : Json) : Option PlannerState :=
  match (loadGarden j).gardenPath, (loadGarden j).plants, (loadGarden j).pots with
  | some g, some pl, some po =>
    some { s with gardenPath := g, plants := pl, pots := po }
  | _, _, _ => none

/- ============== round-to-nearest helper lemmas ============== -/

/-- The JS rounding `⌊y + 1/2⌋` lands within a half of its input. -/
theorem roundJs_abs_le (y : ℚ) : |(roundJs y : ℚ) - y| ≤ 1/2 := by
  unfold roundJs
  have h1 : ((⌊y + 1/2⌋ : ℤ) : ℚ) ≤ y + 1/2 := Int.floor_le _
  have h2 : y + 1/2 < (⌊y + 1/2⌋ : ℤ) + 1 := Int.lt_floor_add_one _
  rw [abs_le]
  constructor <;> push_cast at h2 ⊢ <;> linarith

/-- The JS rounding `⌊y + 1/2⌋` is a nearest integer to its input. -/
theorem roundJs_nearest (y : ℚ) (k : ℤ) :
    |(roundJs y : ℚ) - y| ≤ |(k : ℚ) - y| := by
  by_cases hk : k = roundJs y
  · subst hk; exact le_refl _
  · have h0 : k - roundJs y ≠ 0 := sub_ne_zero.mpr hk
    have h1 : (1 : ℤ) ≤ |k - roundJs y| := Int.one_le_abs h0
    have h1q : (1 : ℚ) ≤ |(k : ℚ) - (roundJs y : ℚ)| := by
      have hc : ((|k - roundJs y| : ℤ) : ℚ) = |(k : ℚ) - (roundJs y : ℚ)| := by
        push_cast [Int.cast_abs]; ring_nf
      rw [← hc]; exact_mod_cast h1
    have h2 := roundJs_abs_le y
    have h3 : |(k : ℚ) - (roundJs y : ℚ)| ≤ |(k : ℚ) - y| + |y - (roundJs y : ℚ)| :=
      abs_sub_le _ _ _
    have h4 : |y - (roundJs y : ℚ)| = |(roundJs y : ℚ) - y| := abs_sub_comm _ _
    linarith

/-- Claim C3: `snapToGrid` sends each coordinate to an integer multiple
of the grid size 20 that is nearest to the raw coordinate (for every
integer multiple `20k`, the snapped value is at least as close); there
is no half-grid offset in this variant. -/
theorem snapToGrid_nearest_multiple (p : Point) (k : ℤ) :
    (∃ m : ℤ, (snapToGrid p).x = gridSize * m) ∧
    (∃ n : ℤ, (snapToGrid p).y = gridSize * n) ∧
    |(snapToGrid p).x - p.x| ≤ |gridSize * (k : ℚ) - p.x| ∧
    |(snapToGrid p).y - p.y| ≤ |gridSize * (k : ℚ) - p.y| := by
  refine ⟨⟨roundJs (p.x / gridSize), by simp [snapToGrid, mul_comm]⟩,
          ⟨roundJs (p.y / gridSize), by simp [snapToGrid, mul_comm]⟩, ?_, ?_⟩
  · have h := roundJs_nearest (p.x / gridSize) k
    have e1 : (roundJs (p.x / gridSize) : ℚ) * gridSize - p.x
        = gridSize * ((roundJs (p.x / gridSize) : ℚ) - p.x / gridSize) := by
      unfold gridSize; ring
    have e2 : gridSize * (k : ℚ) - p.x
        = gridSize * ((k : ℚ) - p.x / gridSize) := by
      unfold gridSize; ring
    show |(roundJs (p.x / gridSize) : ℚ) * gridSize - p.x| ≤ _
    rw [e1, e2, abs_mul, abs_mul]
    have hg : |gridSize| = (20 : ℚ) := by unfold gridSize; norm_num
    rw [hg]
    exact mul_le_mul_of_nonneg_left h (by norm_num)
  · have h := roundJs_nearest (p.y / gridSize) k
    have e1 : (roundJs (p.y / gridSize) : ℚ) * gridSize - p.y
        = gridSize * ((roundJs (p.y / gridSize) : ℚ) - p.y / gridSize) := by
      unfold gridSize; ring
    have e2 : gridSize * (k : ℚ) - p.y
        = gridSize * ((k : ℚ) - p.y / gridSize) := by
      unfold gridSize; ring
    show |(roundJs (p.y / gridSize) : ℚ) * gridSize - p.y| ≤ _
    rw [e1, e2, abs_mul, abs_mul]
    have hg : |gridSize| = (20 : ℚ) := by unfold gridSize; norm_num
    rw [hg]
    exact mul_le_mul_of_nonneg_left h (by norm_num)

/-- Rounding an exact integer is the identity. -/
theorem roundJs_intCast (r : ℤ) : roundJs (r : ℚ) = r := by
  unfold roundJs
  have : ((r : ℚ) + 1/2) = (r : ℚ) + 1/2 := rfl
  rw [show ((r : ℚ) + 1/2) = ((r : ℤ) : ℚ) + 1/2 by norm_num]
  rw [Int.floor_int_add]
  norm_num

/-- Claim C10: `snapToGrid` is idempotent. -/
theorem snapToGrid_idempotent (p : Point) :
    snapToGrid (snapToGrid p) = snapToGrid p := by
  have key : ∀ q : ℚ,
      (roundJs (((roundJs (q / gridSize) : ℚ) * gridSize) / gridSize) : ℚ) * gridSize
        = (roundJs (q / gridSize) : ℚ) * gridSize := by
    intro q
    have hg : (gridSize : ℚ) ≠ 0 := by unfold gridSize; norm_num
    rw [mul_div_cancel_right₀ _ hg, roundJs_intCast]
  ext
  · exact key p.x
  · exact key p.y

/- ============== save / load round-trip (C1, C2, C4) ============== -/

theorem pointFromJson_pointToJson (p : Point) :
    pointFromJson (pointToJson p) = some p := by
  simp [pointToJson, pointFromJson, List.lookup]

theorem plantFromJson_plantToJson (q : Plant) :
    plantFromJson (plantToJson q) = some q := by
  simp [plantToJson, plantFromJson, List.lookup]

theorem decodeList_go_points (l : List Point) :
    decodeList.go pointFromJson (l.map pointToJson) = some l := by
  induction l with
  | nil => rfl
  | cons a t ih => simp [decodeList.go, pointFromJson_pointToJson, ih]

theorem decodeList_go_plants (l : List Plant) :
    decodeList.go plantFromJson (l.map plantToJson) = some l := by
  induction l with
  | nil => rfl
  | cons a t ih => simp [decodeList.go, plantFromJson_plantToJson, ih]

/-- Claim C1: saving the garden and loading the resulting JSON restores
the boundary point sequence, the plant records and the pot set exactly. -/
theorem saveGarden_loadGarden_roundtrip (s : PlannerState) :
    loadGarden (saveJson s) =
      ⟨some s.gardenPath, some s.plants, some s.pots⟩ := by
  simp [loadGarden, saveJson, jsonLookup, List.lookup, decodeList,
        decodeList_go_points, decodeList_go_plants]

/-- Claim C2, counterexample: loading a JSON object that lacks the
`plants` key does NOT produce the empty plant collection — the field
becomes the undefined value, because `loadGarden` assigns
`gardenData.plants` with no defaulting. -/
theorem loadGarden_missing_plants_not_empty :
    (loadGarden (Json.obj [])).plants ≠ some ([] : List Plant) := by
  simp [loadGarden, jsonLookup]

/-- Claim C2, amended: when one of the three collection keys is absent,
the corresponding planner collection becomes the JS `undefined`
(modelled `none`), not the empty collection; no defaulting occurs. -/
theorem loadGarden_absent_key_undefined (j : Json) :
    (jsonLookup "gardenPath" j = none → (loadGarden j).gardenPath = none) ∧
    (jsonLookup "plants" j = none → (loadGarden j).plants = none) ∧
    (jsonLookup "pots" j = none → (loadGarden j).pots = none) := by
  refine ⟨fun h => ?_, fun h => ?_, fun h => ?_⟩ <;> simp [loadGarden, h]

/-- Witness for the amended C2 at a concrete JSON object. -/
theorem loadGarden_absent_key_undefined_witness :
    (loadGarden (Json.obj [("pots", Json.arr [])])).plants = none :=
  (loadGarden_absent_key_undefined (Json.obj [("pots", Json.arr [])])).2.1
    (by simp [jsonLookup, List.lookup])

/-- A concrete plant and planner state used as explicit inputs. -/
def exPlant : Plant := ⟨3, 4, "Rose"⟩

/-- A concrete planner state holding one plant. -/
def exState : PlannerState := ⟨[], [exPlant], [], none, "draw"⟩

/-- Claim C4, counterexample: in the persisted object of this variant a
plant record has exactly the keys `x`, `y`, `type` — it carries no
`waterNeeds`, `sunlight` or `spacing` field. -/
theorem saveJson_plants_lack_spec_fields :
    jsonLookup "plants" (saveJson exState) = some (Json.arr [plantToJson exPlant]) ∧
    jsonKeys (plantToJson exPlant) = ["x", "y", "type"] ∧
    jsonLookup "waterNeeds" (plantToJson exPlant) = none ∧
    jsonLookup "sunlight" (plantToJson exPlant) = none ∧
    jsonLookup "spacing" (plantToJson exPlant) = none := by
  refine ⟨?_, rfl, ?_, ?_, ?_⟩ <;>
    simp [saveJson, exState, jsonLookup, plantToJson, exPlant, List.lookup]

/-- Claim C4, amended: the persisted object has exactly the three keys
`gardenPath` (the ordered boundary point list), `plants` and `pots`;
every plant record serializes with exactly the keys `x`, `y`, `type`
and every point with exactly `x`, `y`. -/
theorem saveJson_format (s : PlannerState) (q : Plant) (r : Point) :
    jsonKeys (saveJson s) = ["gardenPath", "plants", "pots"] ∧
    jsonLookup "gardenPath" (saveJson s) = some (Json.arr (s.gardenPath.map pointToJson)) ∧
    jsonLookup "plants" (saveJson s) = some (Json.arr (s.plants.map plantToJson)) ∧
    jsonLookup "pots" (saveJson s) = some (Json.arr (s.pots.map pointToJson)) ∧
    jsonKeys (plantToJson q) = ["x", "y", "type"] ∧
    jsonKeys (pointToJson r) = ["x", "y"] := by
  refine ⟨rfl, ?_, ?_, ?_, rfl, rfl⟩ <;> simp [saveJson, jsonLookup, List.lookup]

/- ============== lock behaviour (C5) ============== -/

/-- A concrete planner state in the middle of a drag. -/
def exLock : PlannerState := ⟨[], [], [], some ⟨0, 0⟩, "draw"⟩

/-- Claim C5, counterexample: if a drag is in progress (`currentLineStart`
non-null) at the moment `lockGarden` runs, the next mouse-up still
appends a point to `gardenPath`, because `stopDrawing` checks only
`currentLineStart` and never `currentTool`. -/
theorem lockGarden_midDrag_counterexample :
    (stepEv (Ev.up ⟨0, 0⟩) (lockGarden exLock)).gardenPath ≠
      (lockGarden exLock).gardenPath := by
  simp [stepEv, stopDrawing, lockGarden, exLock]

theorem stepEv_locked_fix (s : PlannerState) (h1 : s.currentTool = "locked")
    (h2 : s.currentLineStart = none) (e : Ev) : stepEv e s = s := by
  cases e with
  | down p => simp [stepEv, startDrawing, h1]
  | move p => rfl
  | up p => simp [stepEv, stopDrawing, h2]

/-- Claim C5, amended: once the garden is locked AND no drag is in
progress (`currentLineStart = null`), no sequence of subsequent mouse
events ever changes `gardenPath`; a drag pending at lock time, however,
still commits one more point on the next mouse-up (see the
counterexample). -/
theorem lockGarden_freezes (s : PlannerState) (h1 : s.currentTool = "locked")
    (h2 : s.currentLineStart = none) (evs : List Ev) :
    (runEvents s evs).gardenPath = s.gardenPath := by
  induction evs with
  | nil => rfl
  | cons e t ih =>
    show (runEvents (stepEv e s) t).gardenPath = s.gardenPath
    rw [stepEv_locked_fix s h1 h2 e]
    exact ih

/-- A concrete locked planner state with an empty drag. -/
def lockedState : PlannerState := ⟨[⟨0, 0⟩], [], [], none, "locked"⟩

/-- Witness for the amended C5 at a concrete state and event list. -/
theorem lockGarden_freezes_witness :
    (runEvents lockedState [Ev.down ⟨1, 2⟩, Ev.move ⟨2, 3⟩, Ev.up ⟨3, 4⟩]).gardenPath
      = [⟨0, 0⟩] :=
  lockGarden_freezes lockedState rfl rfl [Ev.down ⟨1, 2⟩, Ev.move ⟨2, 3⟩, Ev.up ⟨3, 4⟩]

/- ============== frame property of saveGarden (C9) ============== -/

/-- Claim C9: `saveGarden` only reads the collections and writes the
store; every planner field is unchanged. -/
theorem saveGarden_preserves_state (s : PlannerState)
    (store : List (String × Json)) :
    (saveGarden s store).1.gardenPath = s.gardenPath ∧
    (saveGarden s store).1.plants = s.plants ∧
    (saveGarden s store).1.pots = s.pots ∧
    (saveGarden s store).1.currentTool = s.currentTool ∧
    (saveGarden s store).1.currentLineStart = s.currentLineStart :=
  ⟨rfl, rfl, rfl, rfl, rfl⟩

/- ============== append-only lifecycle (C8) ============== -/

/-- Every public operation of the class other than `loadGarden`
(the three mouse handlers, `addPlant`, `addPot`, `saveGarden`,
`setMode`, `lockGarden`), with its arguments. -/
inductive Op where
  | mouseDown : Point → Op
  | mouseMove : Point → Op
  | mouseUp : Point → Op
  | plantAt : ℚ → ℚ → String → Op
  | potAt : ℚ → ℚ → Op
  | save : Op
  | mode : String → Op
  | lock : Op

/-- Dispatch of one non-load operation. -/
def stepOp : Op → PlannerState → PlannerState
  | Op.mouseDown p, s => startDrawing s p
  | Op.mouseMove p, s => draw s p
  | Op.mouseUp p, s => stopDrawing s p
  | Op.plantAt x y t, s => addPlant s x y t
  | Op.potAt x y, s => addPot s x y
  | Op.save, s => (saveGarden s []).1
  | Op.mode t, s => setMode s t
  | Op.lock, s => lockGarden s

/-- Claim C8: no operation ever removes a plant or pot.  Every operation
other than `loadGarden` either leaves both collections unchanged or
appends exactly one element to exactly one of them; and the collections
produced by `loadGarden` depend only on the loaded JSON, never on the
previous collections (wholesale replacement). -/
theorem plants_pots_append_only :
    (∀ (op : Op) (s : PlannerState),
      ((stepOp op s).plants = s.plants ∧ (stepOp op s).pots = s.pots) ∨
      (∃ q : Plant, (stepOp op s).plants = s.plants ++ [q] ∧
        (stepOp op s).pots = s.pots) ∨
      (∃ r : Point, (stepOp op s).pots = s.pots ++ [r] ∧
        (stepOp op s).plants = s.plants)) ∧
    (∀ (j : Json) (s₁ s₂ t₁ : PlannerState), applyLoad s₁ j = some t₁ →
      ∃ t₂, applyLoad s₂ j = some t₂ ∧ t₂.gardenPath = t₁.gardenPath ∧
        t₂.plants = t₁.plants ∧ t₂.pots = t₁.pots) := by
  constructor
  · intro op s
    cases op with
    | mouseDown p =>
      simp only [stepOp]
      unfold startDrawing
      split_ifs
      · exact Or.inl ⟨rfl, rfl⟩
      · exact Or.inr (Or.inl ⟨⟨p.x, p.y, "Rose"⟩, rfl, rfl⟩)
      · exact Or.inr (Or.inr ⟨⟨p.x, p.y⟩, rfl, rfl⟩)
      · exact Or.inl ⟨rfl, rfl⟩
    | mouseMove p => exact Or.inl ⟨rfl, rfl⟩
    | mouseUp p =>
      rcases hs : s.currentLineStart with _ | q <;>
        exact Or.inl ⟨by simp [stepOp, stopDrawing, hs], by simp [stepOp, stopDrawing, hs]⟩
    | plantAt x y t => exact Or.inr (Or.inl ⟨⟨x, y, t⟩, rfl, rfl⟩)
    | potAt x y => exact Or.inr (Or.inr ⟨⟨x, y⟩, rfl, rfl⟩)
    | save => exact Or.inl ⟨rfl, rfl⟩
    | mode t => exact Or.inl ⟨rfl, rfl⟩
    | lock => exact Or.inl ⟨rfl, rfl⟩
  · intro j s₁ s₂ t₁ h
    unfold applyLoad at h ⊢
    rcases hg : (loadGarden j).gardenPath with _ | g <;>
      rcases hp : (loadGarden j).plants with _ | pl <;>
      rcases hq : (loadGarden j).pots with _ | po <;>
      simp only [hg, hp, hq, Option.some_inj, reduceCtorEq] at h ⊢
    subst h
    exact ⟨_, rfl, rfl, rfl, rfl⟩

/-- The initial planner state of a fresh page. -/
def initS : PlannerState := ⟨[], [], [], none, "draw"⟩

/-- Witness for C8 at a concrete operation and a concrete load. -/
theorem plants_pots_append_only_witness :
    (((stepOp (Op.plantAt 1 2 "Tulip") initS).plants = initS.plants ∧
       (stepOp (Op.plantAt 1 2 "Tulip") initS).pots = initS.pots) ∨
     (∃ q : Plant, (stepOp (Op.plantAt 1 2 "Tulip") initS).plants = initS.plants ++ [q] ∧
       (stepOp (Op.plantAt 1 2 "Tulip") initS).pots = initS.pots) ∨
     (∃ r : Point, (stepOp (Op.plantAt 1 2 "Tulip") initS).pots = initS.pots ++ [r] ∧
       (stepOp (Op.plantAt 1 2 "Tulip") initS).plants = initS.plants)) ∧
    (∃ t₂, applyLoad lockedState (saveJson initS) = some t₂ ∧
      t₂.gardenPath = ([] : List Point) ∧ t₂.plants = ([] : List Plant) ∧
      t₂.pots = ([] : List Point)) :=
  ⟨plants_pots_append_only.1 (Op.plantAt 1 2 "Tulip") initS,
   plants_pots_append_only.2 (saveJson initS) initS lockedState
     ⟨[], [], [], none, "draw"⟩
     (by simp [applyLoad, loadGarden, saveJson, jsonLookup, List.lookup,
               decodeList, decodeList.go, initS])⟩

/- ============== boundary containment (C6) ============== -/

/-- Modelled from the spec: the spec (§1, Glossary) uses the boundary as
a containment mask via "point-in-polygon containment testing delegated
to the platform's native path API"; no containment routine exists in
this variant's source, so the mask is modelled as the standard even-odd
crossing test, with the crossing inequality cross-multiplied to stay in
exact rational arithmetic. -/
def edgeCrosses (p a b : Point) : Bool :=
  (decide (a.y > p.y) != decide (b.y > p.y)) &&
  (if b.y > a.y then
    decide ((p.x - a.x) * (b.y - a.y) < (b.x - a.x) * (p.y - a.y))
   else
    decide ((b.x - a.x) * (p.y - a.y) < (p.x - a.x) * (b.y - a.y)))

/-- Edges of the closed polygon: consecutive pairs plus last-to-first. -/
def polygonEdges : List Point → List (Point × Point)
  | [] => []
  | p0 :: rest => (p0 :: rest).zip (rest ++ [p0])

/-- Modelled from the spec: even-odd point-in-polygon containment. -/
def inPolygon (poly : List Point) (p : Point) : Bool :=
  ((polygonEdges poly).filter (fun e => edgeCrosses p e.1 e.2)).length % 2 == 1

/-- A concrete locked square boundary. -/
def sqPath : List Point := [⟨0, 0⟩, ⟨100, 0⟩, ⟨100, 100⟩, ⟨0, 100⟩]

/-- A planner state with the square boundary drawn and the plant tool
selected. -/
def exPlace : PlannerState := ⟨sqPath, [], [], none, "plant"⟩

/-- Claim C6, counterexample: a plant-tool click at (500, 500), outside
the square boundary, still appends a plant — `startDrawing` / `addPlant`
perform no containment test at all. -/
theorem placement_ignores_boundary :
    inPolygon sqPath ⟨500, 500⟩ = false ∧
    exPlace.plants = [] ∧
    (stepEv (Ev.down ⟨500, 500⟩) exPlace).plants = [⟨500, 500, "Rose"⟩] := by
  refine ⟨?_, rfl, ?_⟩
  · norm_num [inPolygon, polygonEdges, sqPath, edgeCrosses, List.filter_cons]
  · simp [stepEv, startDrawing, exPlace, addPlant]

/-- Claim C6, amended: placement is unconditional — a click with the
plant tool appends a plant at the raw click position and leaves pots
alone, and a click with the pot tool appends a pot, in both cases with
no reference to the boundary polygon whatsoever. -/
theorem placement_appends_unconditionally (s : PlannerState) (p : Point) :
    (s.currentTool = "plant" →
      (stepEv (Ev.down p) s).plants = s.plants ++ [⟨p.x, p.y, "Rose"⟩] ∧
      (stepEv (Ev.down p) s).pots = s.pots) ∧
    (s.currentTool = "pot" →
      (stepEv (Ev.down p) s).pots = s.pots ++ [⟨p.x, p.y⟩] ∧
      (stepEv (Ev.down p) s).plants = s.plants) := by
  constructor
  · intro h
    constructor <;> simp [stepEv, startDrawing, h, addPlant]
  · intro h
    constructor <;> simp [stepEv, startDrawing, h, addPot]

/-- Witness for the amended C6 at the concrete outside click. -/
theorem placement_appends_unconditionally_witness :
    (stepEv (Ev.down ⟨500, 500⟩) exPlace).plants
        = exPlace.plants ++ [⟨500, 500, "Rose"⟩] ∧
    (stepEv (Ev.down ⟨500, 500⟩) exPlace).pots = exPlace.pots :=
  (placement_appends_unconditionally exPlace ⟨500, 500⟩).1 rfl

/- ============== proximity violations (C7) ============== -/

/-- Modelled from the spec: the plant record as proximity violation
detection (§3, §4.1) sees it — a position plus a spacing radius
(default 30); species label and categories play no role in the
distance check and are omitted. -/
structure SPlant where
  x : ℚ
  y : ℚ
  spacing : ℚ
deriving DecidableEq, Repr, Inhabited

/-- Squared Euclidean distance between two plant centers. -/
def dist2 (a b : SPlant) : ℚ := (a.x - b.x) ^ 2 + (a.y - b.y) ^ 2

/-- Modelled from the spec (§4.1): two plants violate each other when
the Euclidean distance between their centers is strictly less than the
minimum of their two spacing radii; stated on squares (for a
nonnegative bound, d < m iff d^2 < m^2) to stay in exact rational
arithmetic. -/
def tooClose (a b : SPlant) : Bool :=
  decide (dist2 a b < (min a.spacing b.spacing) ^ 2)

/-- Modelled from the spec (§4.1): the set of violating plants — every
index whose plant is too close to some other plant of the collection
(identity is positional, mirroring the code's object-reference
identity). -/
def violationIdx (ps : List SPlant) : List Nat :=
  (List.range ps.length).filter (fun i =>
    (List.range ps.length).any (fun j =>
      decide (j ≠ i) && tooClose (ps.getD i default) (ps.getD j default)))

theorem tooClose_symm (a b : SPlant) : tooClose b a = tooClose a b := by
  unfold tooClose
  have hd : dist2 b a = dist2 a b := by unfold dist2; ring
  rw [hd, min_comm]

/-- Claim C7: violation detection is symmetric — whenever the plant at
index `i` is too close to the plant at index `j`, both indices are in
the violation set; and two plants whose center distance equals the
minimum of their spacing radii (squared form) are not flagged at all. -/
theorem violation_symmetric_and_strict :
    (∀ (ps : List SPlant) (i j : Nat), i < ps.length → j < ps.length →
      i ≠ j → tooClose (ps.getD i default) (ps.getD j default) = true →
      i ∈ violationIdx ps ∧ j ∈ violationIdx ps) ∧
    (∀ a b : SPlant, dist2 a b = (min a.spacing b.spacing) ^ 2 →
      violationIdx [a, b] = []) := by
  constructor
  · intro ps i j hi hj hij h
    have hsymm : tooClose (ps.getD j default) (ps.getD i default) = true := by
      rw [tooClose_symm]; exact h
    constructor
    · refine List.mem_filter.mpr ⟨List.mem_range.mpr hi, ?_⟩
      refine List.any_eq_true.mpr ⟨j, List.mem_range.mpr hj, ?_⟩
      rw [Bool.and_eq_true]
      exact ⟨decide_eq_true (Ne.symm hij), h⟩
    · refine List.mem_filter.mpr ⟨List.mem_range.mpr hj, ?_⟩
      refine List.any_eq_true.mpr ⟨i, List.mem_range.mpr hi, ?_⟩
      rw [Bool.and_eq_true]
      exact ⟨decide_eq_true hij, hsymm⟩
  · intro a b hd
    have h1 : tooClose a b = false := by
      unfold tooClose
      rw [decide_eq_false_iff_not, hd]
      exact lt_irrefl _
    have h2 : tooClose b a = false := by
      rw [tooClose_symm]; exact h1
    unfold violationIdx
    rw [show ([a, b] : List SPlant).length = 2 from rfl,
        show List.range 2 = [0, 1] from rfl]
    simp [List.filter_cons, List.any_cons, h1, h2]

/-- Witness for C7: two plants 10 apart with spacing radii 30 are both
flagged; two plants exactly 5 apart with minimum radius 5 produce the
empty violation set. -/
theorem violation_symmetric_and_strict_witness :
    (0 ∈ violationIdx [⟨0, 0, 30⟩, ⟨10, 0, 30⟩] ∧
     1 ∈ violationIdx [⟨0, 0, 30⟩, ⟨10, 0, 30⟩]) ∧
    violationIdx [⟨0, 0, 5⟩, ⟨3, 4, 30⟩] = [] :=
  ⟨violation_symmetric_and_strict.1 [⟨0, 0, 30⟩, ⟨10, 0, 30⟩] 0 1
      (by decide) (by decide) (by decide)
      (by norm_num [tooClose, dist2, List.getD]),
   violation_symmetric_and_strict.2 ⟨0, 0, 5⟩ ⟨3, 4, 30⟩
      (by norm_num [dist2, min_def])⟩

end Gardener
